import Mathlib

/-!
Verification of `window-setup-fnm.mjs`, a Windows setup script for fnm
(Fast Node Manager).  The script edits a PowerShell profile file, writes a
cmd.exe init script, and merges an `AutoRun` value in the registry.

The embedding models the filesystem state touched by the script (the two
candidate PowerShell profile files, the cmd init file) and the registry
interaction (the stdout of `reg query`, whether `reg add` succeeds).  Pure
string operations of JavaScript (`includes`, `trim`, the regex
`AutoRun\s+REG_SZ\s+(.+)`) are embedded as executable Lean functions on
`List Char`.
-/

/-- Characters matched by the JavaScript regex class `\s` (whitespace and
line terminators), used both for `\s+` in the AutoRun regex and for
`String.prototype.trim`. -/
def jsWs (c : Char) : Bool :=
  c == ' ' || c == '\t' || c == '\n' || c == '\r' || c == '\u000b' ||
  c == '\u000c' || c == '\u00a0' || c == '\u1680' || c == '\u2000' ||
  c == '\u2001' || c == '\u2002' || c == '\u2003' || c == '\u2004' ||
  c == '\u2005' || c == '\u2006' || c == '\u2007' || c == '\u2008' ||
  c == '\u2009' || c == '\u200a' || c == '\u2028' || c == '\u2029' ||
  c == '\u202f' || c == '\u205f' || c == '\u3000' || c == '\ufeff'

/-- Strip `jsWs` characters from both ends of a character list. -/
def trimList (l : List Char) : List Char :=
  ((l.dropWhile jsWs).reverse.dropWhile jsWs).reverse

/-- JavaScript `String.prototype.trim` (used on the `reg query` output at
line 89 and on the regex capture at line 99). -/
def jsTrim (s : String) : String := String.mk (trimList s.data)

/-- Helper for `containsStr`: does `pat` occur as a contiguous run inside
the character list? -/
def containsAux (pat : List Char) : List Char → Bool
  | [] => pat.isPrefixOf []
  | l@(_ :: cs) => pat.isPrefixOf l || containsAux pat cs

/-- JavaScript `String.prototype.includes`: substring test. -/
def containsStr (s pat : String) : Bool := containsAux pat.data s.data

/-- The filesystem state seen by `setupPowerShell`: the contents of the two
candidate profile files (`none` means the file does not exist). -/
structure PSState where
  profile5 : Option String
  profile6 : Option String
deriving DecidableEq

/-- Which of the two candidate profile paths is used:
`ps5` is `POWERSHELL_PROFILE_5` (`Documents\WindowsPowerShell\...`, line 15),
`ps6` is `POWERSHELL_PROFILE_6` (`Documents\PowerShell\...`, line 16). -/
inductive ProfilePath
  | ps5
  | ps6
deriving DecidableEq

/-- The content of the profile file at a candidate path. -/
def profileContentAt (st : PSState) : ProfilePath → Option String
  | .ps5 => st.profile5
  | .ps6 => st.profile6

/-- `writeFileSync(profilePath, c)`: overwrite (create) the file at `p`. -/
def writeProfile (st : PSState) : ProfilePath → String → PSState
  | .ps5, c => { st with profile5 := some c }
  | .ps6, c => { st with profile6 := some c }

/-- Lines 36-39: `profilePath` starts as `POWERSHELL_PROFILE_5` and is
switched to `POWERSHELL_PROFILE_6` only when the first does not exist and
the second does. -/
def chosenProfile (st : PSState) : ProfilePath :=
  if !st.profile5.isSome && st.profile6.isSome then .ps6 else .ps5

/-- Line 41: the PowerShell initialization line. -/
def fnmInitLine : String :=
  "fnm env --use-on-cd --corepack-enabled --shell powershell | Out-String | Invoke-Expression"

/-- The two-line marker block (comment header plus init line) appended to
the profile, as assembled in lines 62-63. -/
def markerBlock : String := "# fnm (Fast Node Manager)\n" ++ fnmInitLine ++ "\n"

/-- Lines 61-63: the new profile content.  JavaScript string truthiness
makes the empty string take the bare-block branch. -/
def newContent (profileContent : String) : String :=
  if profileContent ≠ "" then profileContent ++ "\n\n" ++ markerBlock
  else markerBlock

/-- Lines 32-68, `setupPowerShell`: pick the profile path, skip when the
existing content already contains the substring `fnm env`, otherwise write
the appended (or fresh) content.  Directory creation (lines 52-58) touches
no file content and is not modeled. -/
def setupPowerShell (st : PSState) : PSState :=
  match profileContentAt st (chosenProfile st) with
  | some profileContent =>
      if containsStr profileContent "fnm env" then st
      else writeProfile st (chosenProfile st) (newContent profileContent)
  | none => writeProfile st (chosenProfile st) (newContent "")

/-- Line 17: `join(USER_HOME, 'fnm_init.cmd')`; the script targets Windows,
where `path.join` uses the backslash separator.  The home directory is a
parameter of the embedding. -/
def CMD_INIT_FILE (home : String) : String := home ++ "\\fnm_init.cmd"

/-- Lines 75-81: the fixed cmd init-script template. -/
def cmdContent : String :=
  "@echo off\n:: for /F will launch a new instance of cmd so we create a guard to prevent an infinite loop\nif not defined FNM_AUTORUN_GUARD (\n    set \"FNM_AUTORUN_GUARD=AutorunGuard\"\n    FOR /f \"tokens=*\" %%z IN ('fnm env --use-on-cd --corepack-enabled --shell cmd') DO CALL %%z\n)\n"

/-- Lines 114-117: the warning printed by the catch block of `setupCmd`,
with the manual-configuration instructions (registry key path and value). -/
def manualSetupLogs (home : String) : List String :=
  ["   ⚠️  Could not configure AutoRun automatically",
   "   📝 Manual setup: Add this to registry:",
   "      HKCU\\Software\\Microsoft\\Command Processor\\AutoRun",
   "      Value: " ++ CMD_INIT_FILE home]

/-- JavaScript `.` in a regex without the dotAll flag: any character except
a line terminator. -/
def jsDot (c : Char) : Bool :=
  !(c == '\n' || c == '\r' || c == '\u2028' || c == '\u2029')

/-- Length of the maximal leading run of `\s` characters. -/
def wsRun : List Char → Nat
  | [] => 0
  | c :: cs => if jsWs c then wsRun cs + 1 else 0

/-- Length of the maximal leading run of `.`-matchable characters. -/
def dotRun : List Char → Nat
  | [] => 0
  | c :: cs => if jsDot c then dotRun cs + 1 else 0

/-- Backtracking for `\s+`: try consuming `k+1` whitespace characters for
`k+1` from the fuel (the maximal run length) down to `1`, running the
continuation on the remainder; greedy order, longest first. -/
def tryWsAux (l : List Char) (cont : List Char → Option (List Char)) :
    Nat → Option (List Char)
  | 0 => none
  | k + 1 =>
      match cont (l.drop (k + 1)) with
      | some r => some r
      | none => tryWsAux l cont k

/-- Match `\s+` at the front of `l`, then run `cont` on the rest. -/
def tryWs (l : List Char) (cont : List Char → Option (List Char)) :
    Option (List Char) :=
  tryWsAux l cont (wsRun l)

/-- Match the trailing capture group `(.+)` greedily: the maximal nonempty
run of non-line-terminator characters. -/
def matchCapture (l : List Char) : Option (List Char) :=
  let n := dotRun l
  if n = 0 then none else some (l.take n)

/-- Match `\s+REG_SZ\s+(.+)` (with backtracking) and return the capture. -/
def matchAfterAutoRun (l : List Char) : Option (List Char) :=
  tryWs l (fun l1 =>
    if "REG_SZ".data.isPrefixOf l1 then
      tryWs (l1.drop 6) (fun l2 => matchCapture l2)
    else none)

/-- The regex `/AutoRun\s+REG_SZ\s+(.+)/` of line 97: scan positions left
to right for the literal `AutoRun`, then match the tail; return the first
(group 1) capture. -/
def regexScan : List Char → Option (List Char)
  | [] => none
  | l@(_ :: cs) =>
      if "AutoRun".data.isPrefixOf l then
        match matchAfterAutoRun (l.drop 7) with
        | some g => some g
        | none => regexScan cs
      else regexScan cs

/-- Lines 95-103: `existingValue` is the trimmed first capture of the regex
when it matches, and the empty string otherwise.  (`String.prototype.match`
returns `null` on no match; the inner catch is unreachable since matching
never throws.) -/
def extractExisting (currentAutoRun : String) : String :=
  match regexScan currentAutoRun.data with
  | some g => jsTrim (String.mk g)
  | none => ""

/-- The environment `setupCmd` runs against: the prior content of the cmd
init file (`none` if absent; the script never reads it), the stdout of
`reg query` (`none` when the command exits nonzero and `execSync` throws,
e.g. when the AutoRun value is unset), and whether `reg add` succeeds. -/
structure CmdEnv where
  priorInit : Option String
  queryOut : Option String
  addOk : Bool
deriving DecidableEq

/-- Observable outcome of `setupCmd`: the content written to the init file,
whether the already-configured message was printed, the value passed to
`reg add` if it was reached, the value actually stored by a successful
`reg add`, whether the catch branch ran, and the lines it printed. -/
structure CmdOutcome where
  initFileContent : String
  already : Bool
  regAddAttempt : Option String
  regWritten : Option String
  warned : Bool
  warnLogs : List String
deriving DecidableEq

/-- Lines 87-112, the body of the try block in `setupCmd`: query the
AutoRun value (a failed query throws), report already-configured when the
trimmed output contains the init-file path, otherwise compose the new value
and run `reg add` (a failed add throws, carrying the attempted value so the
outcome can record it). -/
def setupCmdTry (home : String) (env : CmdEnv) :
    Except (Option String) (Bool × Option String) :=
  match env.queryOut with
  | none => Except.error none
  | some out =>
      let currentAutoRun := jsTrim out
      if containsStr currentAutoRun (CMD_INIT_FILE home) then
        Except.ok (true, none)
      else
        let existingValue := extractExisting currentAutoRun
        let newAutoRun :=
          if existingValue ≠ "" then existingValue ++ " & " ++ CMD_INIT_FILE home
          else CMD_INIT_FILE home
        if env.addOk then Except.ok (false, some newAutoRun)
        else Except.error (some newAutoRun)

/-- Lines 71-119, `setupCmd`: unconditionally write the init-script
template, then try to configure AutoRun; any registry failure is caught
locally and turned into the manual-setup warning. -/
def setupCmd (home : String) (env : CmdEnv) : CmdOutcome :=
  match setupCmdTry home env with
  | Except.ok (already, written) =>
      { initFileContent := cmdContent, already := already,
        regAddAttempt := written, regWritten := written,
        warned := false, warnLogs := [] }
  | Except.error attempt =>
      { initFileContent := cmdContent, already := false,
        regAddAttempt := attempt, regWritten := none,
        warned := true, warnLogs := manualSetupLogs home }

/-- Lines 122-136, the top-level try/catch after a successful preflight:
run `setupPowerShell` then `setupCmd` and exit 0 unless an error escapes.
In this embedding filesystem writes succeed and `setupCmd` catches its
registry errors internally, so no error reaches the top-level catch. -/
def mainRun (home : String) (ps : PSState) (env : CmdEnv) :
    Nat × PSState × CmdOutcome :=
  (0, setupPowerShell ps, setupCmd home env)

theorem string_data_append (s t : String) : (s ++ t).data = s.data ++ t.data := by
  cases s
  cases t
  rfl

theorem containsAux_append (s t pat : List Char)
    (h : containsAux pat t = true) : containsAux pat (s ++ t) = true := by
  induction s with
  | nil => simpa using h
  | cons c cs ih =>
      simp only [List.cons_append, containsAux, List.append_eq, ih, Bool.or_true]

theorem containsStr_append (s t pat : String)
    (h : containsStr t pat = true) : containsStr (s ++ t) pat = true := by
  unfold containsStr at *
  rw [string_data_append]
  exact containsAux_append _ _ _ h

theorem containsStr_markerBlock : containsStr markerBlock "fnm env" = true := by
  decide

theorem containsStr_newContent (c : String) :
    containsStr (newContent c) "fnm env" = true := by
  unfold newContent
  split
  · rw [String.append_assoc]
    exact containsStr_append _ _ _
      (containsStr_append _ _ _ containsStr_markerBlock)
  · exact containsStr_markerBlock

theorem isPrefixOf_append_self (l r : List Char) : l.isPrefixOf (l ++ r) = true := by
  induction l with
  | nil => cases r <;> rfl
  | cons a as ih => simp [List.isPrefixOf, ih]

theorem profileContentAt_write_self (st : PSState) (p : ProfilePath) (x : String) :
    profileContentAt (writeProfile st p x) p = some x := by
  cases p <;> rfl

theorem profileContentAt_write_other (st : PSState) (p q : ProfilePath) (x : String)
    (h : q ≠ p) : profileContentAt (writeProfile st p x) q = profileContentAt st q := by
  cases p <;> cases q <;> first | rfl | exact absurd rfl h

theorem setupPowerShell_skip (st : PSState) (c : String)
    (h : profileContentAt st (chosenProfile st) = some c)
    (hc : containsStr c "fnm env" = true) :
    setupPowerShell st = st := by
  simp [setupPowerShell, h, hc]

theorem setupPowerShell_idem (st : PSState) :
    setupPowerShell (setupPowerShell st) = setupPowerShell st := by
  rcases st with ⟨p5, p6⟩
  cases p5 with
  | some c =>
      cases hc : containsStr c "fnm env" with
      | true =>
          have h1 : setupPowerShell ⟨some c, p6⟩ = ⟨some c, p6⟩ :=
            setupPowerShell_skip _ c rfl hc
          rw [h1]
          exact h1
      | false =>
          have h1 : setupPowerShell ⟨some c, p6⟩ = ⟨some (newContent c), p6⟩ := by
            simp [setupPowerShell, profileContentAt, chosenProfile, writeProfile, hc]
          rw [h1]
          exact setupPowerShell_skip _ _ rfl (containsStr_newContent c)
  | none =>
      cases p6 with
      | some c =>
          cases hc : containsStr c "fnm env" with
          | true =>
              have h1 : setupPowerShell ⟨none, some c⟩ = ⟨none, some c⟩ :=
                setupPowerShell_skip _ c rfl hc
              rw [h1]
              exact h1
          | false =>
              have h1 : setupPowerShell ⟨none, some c⟩ = ⟨none, some (newContent c)⟩ := by
                simp [setupPowerShell, profileContentAt, chosenProfile, writeProfile, hc]
              rw [h1]
              exact setupPowerShell_skip _ _ rfl (containsStr_newContent c)
      | none =>
          have h1 : setupPowerShell ⟨none, none⟩ = ⟨some (newContent ""), none⟩ := rfl
          rw [h1]
          exact setupPowerShell_skip _ _ rfl (containsStr_newContent "")

/-- Claim C5: running the primary shell configurator twice in a row leaves
the profile state byte-identical after the second run, and when the
existing content of the chosen profile already contains the marker
substring `fnm env` the configurator performs no mutation at all. -/
theorem c5_setup_powershell_idempotent :
    (∀ st : PSState, setupPowerShell (setupPowerShell st) = setupPowerShell st) ∧
    (∀ (st : PSState) (c : String),
      profileContentAt st (chosenProfile st) = some c →
      containsStr c "fnm env" = true → setupPowerShell st = st) :=
  ⟨setupPowerShell_idem, setupPowerShell_skip⟩

theorem c5_setup_powershell_idempotent_witness :
    setupPowerShell (setupPowerShell ⟨some "Write-Host hi", none⟩)
        = setupPowerShell ⟨some "Write-Host hi", none⟩ ∧
    profileContentAt (⟨some "x fnm env y", none⟩ : PSState)
        (chosenProfile ⟨some "x fnm env y", none⟩) = some "x fnm env y" ∧
    containsStr "x fnm env y" "fnm env" = true ∧
    setupPowerShell ⟨some "x fnm env y", none⟩ = ⟨some "x fnm env y", none⟩ :=
  ⟨c5_setup_powershell_idempotent.1 ⟨some "Write-Host hi", none⟩, rfl, by decide,
   c5_setup_powershell_idempotent.2 ⟨some "x fnm env y", none⟩ "x fnm env y" rfl (by decide)⟩

/-- Claim C6: the profile path is resolved by existence precedence over the
two fixed candidates: the `WindowsPowerShell` profile (`ps5`) is preferred;
the `PowerShell` profile (`ps6`) is used only when the first is absent and
the second exists; otherwise the first is the default. -/
theorem c6_profile_path_precedence (a b : String) :
    chosenProfile ⟨some a, some b⟩ = ProfilePath.ps5 ∧
    chosenProfile ⟨some a, none⟩ = ProfilePath.ps5 ∧
    chosenProfile ⟨none, some b⟩ = ProfilePath.ps6 ∧
    chosenProfile ⟨none, none⟩ = ProfilePath.ps5 :=
  ⟨rfl, rfl, rfl, rfl⟩

/-- Claim C7: when no profile file previously exists, one run produces a
profile file whose content is exactly the marker comment line followed by
the single initialization line. -/
theorem c7_fresh_profile_exact_content :
    setupPowerShell ⟨none, none⟩ =
      ⟨some "# fnm (Fast Node Manager)\nfnm env --use-on-cd --corepack-enabled --shell powershell | Out-String | Invoke-Expression\n",
       none⟩ := by
  decide

/-- Claim C8: for a chosen profile with nonempty pre-existing content not
containing the marker substring, the run writes exactly the old content
followed by a blank line and the marker block, leaves the other candidate
file untouched, and the old content is a prefix of the new content. -/
theorem c8_append_preserves_existing (st : PSState) (c : String)
    (h : profileContentAt st (chosenProfile st) = some c)
    (hne : c ≠ "")
    (hc : containsStr c "fnm env" = false) :
    profileContentAt (setupPowerShell st) (chosenProfile st)
        = some (c ++ "\n\n" ++ markerBlock) ∧
    (∀ q, q ≠ chosenProfile st →
        profileContentAt (setupPowerShell st) q = profileContentAt st q) ∧
    c.data.isPrefixOf (c ++ "\n\n" ++ markerBlock).data = true := by
  have hrun : setupPowerShell st = writeProfile st (chosenProfile st) (newContent c) := by
    simp [setupPowerShell, h, hc]
  have hnc : newContent c = c ++ "\n\n" ++ markerBlock := by
    simp [newContent, hne]
  refine ⟨?_, ?_, ?_⟩
  · rw [hrun, hnc, profileContentAt_write_self]
  · intro q hq
    rw [hrun]
    exact profileContentAt_write_other st _ q _ hq
  · rw [string_data_append, string_data_append, List.append_assoc]
    exact isPrefixOf_append_self _ _

theorem c8_append_preserves_existing_witness :
    profileContentAt (⟨some "Write-Host hi", none⟩ : PSState)
        (chosenProfile ⟨some "Write-Host hi", none⟩) = some "Write-Host hi" ∧
    containsStr "Write-Host hi" "fnm env" = false ∧
    profileContentAt (setupPowerShell ⟨some "Write-Host hi", none⟩)
        (chosenProfile ⟨some "Write-Host hi", none⟩)
        = some ("Write-Host hi" ++ "\n\n" ++ markerBlock) ∧
    profileContentAt (setupPowerShell ⟨some "Write-Host hi", none⟩) ProfilePath.ps6
        = profileContentAt (⟨some "Write-Host hi", none⟩ : PSState) ProfilePath.ps6 ∧
    ("Write-Host hi" : String).data.isPrefixOf
        ("Write-Host hi" ++ "\n\n" ++ markerBlock).data = true :=
  ⟨rfl, by decide,
   (c8_append_preserves_existing ⟨some "Write-Host hi", none⟩ "Write-Host hi"
      rfl (by decide) (by decide)).1,
   (c8_append_preserves_existing ⟨some "Write-Host hi", none⟩ "Write-Host hi"
      rfl (by decide) (by decide)).2.1 ProfilePath.ps6 (by decide),
   (c8_append_preserves_existing ⟨some "Write-Host hi", none⟩ "Write-Host hi"
      rfl (by decide) (by decide)).2.2⟩

/-- Claim C1 (evaluation at the failing input): when the AutoRun query
fails (`reg query` exits nonzero because the value is unset), control jumps
to the catch block of `setupCmd`: the manual-setup warning is printed and
no `reg add` is attempted, so no new AutoRun value is composed or written.
This contradicts the claim that the failure is treated as "no existing
value" with the init-script path then written. -/
theorem c1_query_failure_no_autorun_write (home prior : String) (addOk : Bool) :
    setupCmd home ⟨prior, none, addOk⟩ =
      { initFileContent := cmdContent, already := false, regAddAttempt := none,
        regWritten := none, warned := true, warnLogs := manualSetupLogs home } := rfl

/-- Claim C2: when `reg add` fails, `setupCmd` does not abort: the catch
block prints the warning with the manual-configuration instructions (the
registry key path and the value to set), and the top-level run still
finishes with exit status 0. -/
theorem c2_reg_add_failure_recovers (home prior out : String) (ps : PSState)
    (hg : containsStr (jsTrim out) (CMD_INIT_FILE home) = false) :
    (setupCmd home ⟨prior, some out, false⟩).warned = true ∧
    (setupCmd home ⟨prior, some out, false⟩).warnLogs = manualSetupLogs home ∧
    "      HKCU\\Software\\Microsoft\\Command Processor\\AutoRun"
        ∈ (setupCmd home ⟨prior, some out, false⟩).warnLogs ∧
    ("      Value: " ++ CMD_INIT_FILE home)
        ∈ (setupCmd home ⟨prior, some out, false⟩).warnLogs ∧
    (mainRun home ps ⟨prior, some out, false⟩).1 = 0 := by
  have h : setupCmd home ⟨prior, some out, false⟩ =
      { initFileContent := cmdContent, already := false,
        regAddAttempt := some (if extractExisting (jsTrim out) ≠ "" then
            extractExisting (jsTrim out) ++ " & " ++ CMD_INIT_FILE home
          else CMD_INIT_FILE home),
        regWritten := none, warned := true, warnLogs := manualSetupLogs home } := by
    simp [setupCmd, setupCmdTry, hg]
  rw [h]
  refine ⟨rfl, rfl, ?_, ?_, rfl⟩
  · simp [manualSetupLogs]
  · simp [manualSetupLogs]

theorem c2_reg_add_failure_recovers_witness :
    containsStr (jsTrim "x") (CMD_INIT_FILE "C:\\Users\\u") = false ∧
    (setupCmd "C:\\Users\\u" ⟨"", some "x", false⟩).warned = true ∧
    (setupCmd "C:\\Users\\u" ⟨"", some "x", false⟩).warnLogs
        = manualSetupLogs "C:\\Users\\u" ∧
    ("      Value: " ++ CMD_INIT_FILE "C:\\Users\\u")
        ∈ (setupCmd "C:\\Users\\u" ⟨"", some "x", false⟩).warnLogs ∧
    (mainRun "C:\\Users\\u" ⟨none, none⟩ ⟨"", some "x", false⟩).1 = 0 :=
  ⟨by decide,
   (c2_reg_add_failure_recovers "C:\\Users\\u" "" "x" ⟨none, none⟩ (by decide)).1,
   (c2_reg_add_failure_recovers "C:\\Users\\u" "" "x" ⟨none, none⟩ (by decide)).2.1,
   (c2_reg_add_failure_recovers "C:\\Users\\u" "" "x" ⟨none, none⟩ (by decide)).2.2.2.1,
   (c2_reg_add_failure_recovers "C:\\Users\\u" "" "x" ⟨none, none⟩ (by decide)).2.2.2.2⟩

/-- Claim C3: when the AutoRun query succeeds, its trimmed output does not
contain the init-script path, and the pattern extraction yields `v`, the
value written by `reg add` is `v & <init-script-path>` when `v` is
nonempty, and just the init-script path when `v` is empty. -/
theorem c3_compose_autorun_value (home prior out v : String)
    (hg : containsStr (jsTrim out) (CMD_INIT_FILE home) = false)
    (hv : extractExisting (jsTrim out) = v) :
    (setupCmd home ⟨prior, some out, true⟩).regWritten =
      some (if v ≠ "" then v ++ " & " ++ CMD_INIT_FILE home
            else CMD_INIT_FILE home) := by
  subst hv
  simp [setupCmd, setupCmdTry, hg]

theorem c3_compose_autorun_value_witness :
    containsStr (jsTrim "AutoRun    REG_SZ    echo hi") (CMD_INIT_FILE "C:\\u") = false ∧
    extractExisting (jsTrim "AutoRun    REG_SZ    echo hi") = "echo hi" ∧
    (setupCmd "C:\\u" ⟨"", some "AutoRun    REG_SZ    echo hi", true⟩).regWritten =
      some (if "echo hi" ≠ "" then "echo hi" ++ " & " ++ CMD_INIT_FILE "C:\\u"
            else CMD_INIT_FILE "C:\\u") :=
  ⟨by decide, by decide,
   c3_compose_autorun_value "C:\\u" "" "AutoRun    REG_SZ    echo hi" "echo hi"
     (by decide) (by decide)⟩

/-- Claim C4: when the trimmed query output already contains the
init-script path, `setupCmd` reports already-configured and performs no
registry write at all (no `reg add` is even attempted). -/
theorem c4_already_configured_no_write (home prior out : String) (addOk : Bool)
    (hc : containsStr (jsTrim out) (CMD_INIT_FILE home) = true) :
    (setupCmd home ⟨prior, some out, addOk⟩).already = true ∧
    (setupCmd home ⟨prior, some out, addOk⟩).regAddAttempt = none ∧
    (setupCmd home ⟨prior, some out, addOk⟩).regWritten = none ∧
    (setupCmd home ⟨prior, some out, addOk⟩).warned = false := by
  simp [setupCmd, setupCmdTry, hc]

theorem c4_already_configured_no_write_witness :
    containsStr (jsTrim "AutoRun    REG_SZ    C:\\u\\fnm_init.cmd")
        (CMD_INIT_FILE "C:\\u") = true ∧
    (setupCmd "C:\\u" ⟨"", some "AutoRun    REG_SZ    C:\\u\\fnm_init.cmd", true⟩).already
        = true ∧
    (setupCmd "C:\\u" ⟨"", some "AutoRun    REG_SZ    C:\\u\\fnm_init.cmd", true⟩).regAddAttempt
        = none ∧
    (setupCmd "C:\\u" ⟨"", some "AutoRun    REG_SZ    C:\\u\\fnm_init.cmd", true⟩).regWritten
        = none :=
  ⟨by decide,
   (c4_already_configured_no_write "C:\\u" "" "AutoRun    REG_SZ    C:\\u\\fnm_init.cmd"
      true (by decide)).1,
   (c4_already_configured_no_write "C:\\u" "" "AutoRun    REG_SZ    C:\\u\\fnm_init.cmd"
      true (by decide)).2.1,
   (c4_already_configured_no_write "C:\\u" "" "AutoRun    REG_SZ    C:\\u\\fnm_init.cmd"
      true (by decide)).2.2.1⟩

/-- Claim C9: on every run, regardless of prior init-file content, of the
query outcome, and of whether the registry write succeeds, the content
written to the cmd init file is exactly the fixed template. -/
theorem c9_init_script_always_template (home : String) (env : CmdEnv) :
    (setupCmd home env).initFileContent = cmdContent := by
  cases h : setupCmdTry home env with
  | ok r =>
      obtain ⟨a, w⟩ := r
      simp [setupCmd, h]
  | error e => simp [setupCmd, h]

/-- Claim C10: when the query succeeds but its trimmed output neither
contains the init-script path nor matches `AutoRun\s+REG_SZ\s+(.+)` (for
example a value stored as `REG_EXPAND_SZ`), the extracted existing value is
the empty string and the value written is just the init-script path,
discarding the previous AutoRun value. -/
theorem c10_no_regsz_match_discards_value (home prior out : String)
    (hg : containsStr (jsTrim out) (CMD_INIT_FILE home) = false)
    (hm : regexScan (jsTrim out).data = none) :
    extractExisting (jsTrim out) = "" ∧
    (setupCmd home ⟨prior, some out, true⟩).regWritten
        = some (CMD_INIT_FILE home) := by
  have he : extractExisting (jsTrim out) = "" := by
    unfold extractExisting
    rw [hm]
  refine ⟨he, ?_⟩
  simp [setupCmd, setupCmdTry, hg, he]

theorem c10_no_regsz_match_discards_value_witness :
    containsStr (jsTrim "AutoRun    REG_EXPAND_SZ    C:\\other\\tool.cmd")
        (CMD_INIT_FILE "C:\\u") = false ∧
    regexScan (jsTrim "AutoRun    REG_EXPAND_SZ    C:\\other\\tool.cmd").data = none ∧
    extractExisting (jsTrim "AutoRun    REG_EXPAND_SZ    C:\\other\\tool.cmd") = "" ∧
    (setupCmd "C:\\u" ⟨"", some "AutoRun    REG_EXPAND_SZ    C:\\other\\tool.cmd", true⟩).regWritten
        = some (CMD_INIT_FILE "C:\\u") :=
  ⟨by decide, by decide,
   (c10_no_regsz_match_discards_value "C:\\u" ""
      "AutoRun    REG_EXPAND_SZ    C:\\other\\tool.cmd" (by decide) (by decide)).1,
   (c10_no_regsz_match_discards_value "C:\\u" ""
      "AutoRun    REG_EXPAND_SZ    C:\\other\\tool.cmd" (by decide) (by decide)).2⟩
